import Mathlib

/-!
Verification of the aura-plugins epoch protocol core: the 12-phase epoch
lifecycle state machine, the runtime constraint checker, the Temporal
workflow wrapper (scripts/aura_protocol/workflow.py) and the ModelId
composite identifier (scripts/aura_protocol/interfaces.py).

The state machine (state_machine.py), the constraint checker
(constraints.py) and the static tables (types.py) are not part of the
examined source fragment; they are modelled here from the specification,
with their observable behaviour cross-checked against the test suite
(tests/test_state_machine.py, tests/test_constraints.py) and their callers
(workflow.py). Definitions taken directly from source files say so in
their doc comments.
-/

namespace AuraProtocol

/-- Modelled from the spec: `PhaseId` from the missing types.py — 13 values,
12 ordered phases plus the terminal `COMPLETE` sentinel. Constructor names
follow the enum member names used throughout the tests and workflow.py. -/
inductive PhaseId where
  | P1_REQUEST
  | P2_ELICIT
  | P3_PROPOSE
  | P4_REVIEW
  | P5_UAT
  | P6_RATIFY
  | P7_HANDOFF
  | P8_IMPL_PLAN
  | P9_SLICE
  | P10_CODE_REVIEW
  | P11_IMPL_UAT
  | P12_LANDING
  | COMPLETE
deriving DecidableEq, Repr

/-- Modelled from the spec: the `.value` string of each PhaseId enum member
("p1" .. "p12", "complete"), as used in violation messages and search
attributes. -/
def phaseValue : PhaseId → String
  | .P1_REQUEST => "p1"
  | .P2_ELICIT => "p2"
  | .P3_PROPOSE => "p3"
  | .P4_REVIEW => "p4"
  | .P5_UAT => "p5"
  | .P6_RATIFY => "p6"
  | .P7_HANDOFF => "p7"
  | .P8_IMPL_PLAN => "p8"
  | .P9_SLICE => "p9"
  | .P10_CODE_REVIEW => "p10"
  | .P11_IMPL_UAT => "p11"
  | .P12_LANDING => "p12"
  | .COMPLETE => "complete"

/-- Modelled from the spec: `VoteType` — binary enumeration, no other review
outcomes are legal. -/
inductive VoteType where
  | ACCEPT
  | REVISE
deriving DecidableEq, Repr

/-- Modelled from the spec: the three review axes A, B, C. `record_vote`
only accepts these axis letters. -/
inductive Axis where
  | A
  | B
  | C
deriving DecidableEq, Repr

/-- Modelled from the spec: gate names attached to specific edges of the
phase graph. The first review phase's forward edge requires consensus; the
second review phase's forward edge additionally requires a zero blocker
count, both gates evaluated independently. -/
inductive GateId where
  | consensus
  | consensusAndNoBlockers
deriving DecidableEq, Repr

/-- Modelled from the spec: a `Transition` edge of the phase graph —
`(to_phase, condition: human-readable string, optional gate name)`. -/
structure Transition where
  to_phase : PhaseId
  condition : String
  gate : Option GateId := none
deriving DecidableEq, Repr

/-- Modelled from the spec: `review_votes` — a mapping from axis letter
(A, B, C) to VoteType. Since `record_vote` rejects any other axis, the
mapping has exactly these three keys, each optionally bound. -/
structure ReviewVotes where
  a : Option VoteType := none
  b : Option VoteType := none
  c : Option VoteType := none
deriving DecidableEq, Repr

/-- The empty vote mapping (state after init and after every committed
transition). -/
def noVotes : ReviewVotes := {}

/-- Modelled from the spec: `TransitionRecord` — immutable value appended to
history on every successful transition. Timestamps are abstracted to `Nat`
and supplied by the caller-provided clock, per the spec's determinism rule. -/
structure TransitionRecord where
  from_phase : PhaseId
  to_phase : PhaseId
  timestamp : Nat
  triggered_by : String
  condition_met : String
deriving DecidableEq, Repr

/-- Modelled from the spec: `EpochState` — the live runtime snapshot of one
epoch. `completed_phases` is a set of PhaseId; `transition_history` an
ordered sequence of TransitionRecord; `blocker_count` a non-negative
integer; `last_error` an optional string. -/
structure EpochState where
  epoch_id : String
  current_phase : PhaseId
  completed_phases : Finset PhaseId := ∅
  current_role : String := "epoch"
  review_votes : ReviewVotes := {}
  blocker_count : Nat := 0
  transition_history : List TransitionRecord := []
  last_error : Option String := none
deriving DecidableEq

/-- Modelled from the spec: the fresh state a new `EpochStateMachine`
constructs for a given epoch id — initial phase P1, nothing completed, no
votes, no blockers, empty history. -/
def initEpochState (eid : String) : EpochState :=
  { epoch_id := eid, current_phase := .P1_REQUEST }

/-- Modelled from the spec: the transition table of the Phase Graph
(`PHASE_SPECS[p].transitions`) — exactly the forward chain p1 → p2 → ... →
p12 → COMPLETE plus the two documented back-edges p4 → p3 and p10 → p9.
The forward edges out of the two review phases carry gates; `COMPLETE` has
no outgoing edges. Condition strings follow the wording used by the tests. -/
def transitionsFor : PhaseId → List Transition
  | .P1_REQUEST => [⟨.P2_ELICIT, "classification confirmed, research and explore complete", none⟩]
  | .P2_ELICIT => [⟨.P3_PROPOSE, "URD created", none⟩]
  | .P3_PROPOSE => [⟨.P4_REVIEW, "proposal created", none⟩]
  | .P4_REVIEW =>
      [⟨.P5_UAT, "all 3 vote ACCEPT", some .consensus⟩,
       ⟨.P3_PROPOSE, "any reviewer votes REVISE", none⟩]
  | .P5_UAT => [⟨.P6_RATIFY, "user accepts proposal", none⟩]
  | .P6_RATIFY => [⟨.P7_HANDOFF, "plan ratified", none⟩]
  | .P7_HANDOFF => [⟨.P8_IMPL_PLAN, "handoff complete", none⟩]
  | .P8_IMPL_PLAN => [⟨.P9_SLICE, "implementation plan created", none⟩]
  | .P9_SLICE => [⟨.P10_CODE_REVIEW, "slices created", none⟩]
  | .P10_CODE_REVIEW =>
      [⟨.P11_IMPL_UAT, "all BLOCKERs resolved, all 3 ACCEPT", some .consensusAndNoBlockers⟩,
       ⟨.P9_SLICE, "any reviewer votes REVISE", none⟩]
  | .P11_IMPL_UAT => [⟨.P12_LANDING, "user accepts implementation", none⟩]
  | .P12_LANDING => [⟨.COMPLETE, "landing complete", none⟩]
  | .COMPLETE => []

/-- Modelled from the spec: `has_consensus()` — true iff `review_votes`
contains exactly the three axes A, B, C, all mapped to ACCEPT. -/
def has_consensus (v : ReviewVotes) : Bool :=
  v.a = some .ACCEPT && v.b = some .ACCEPT && v.c = some .ACCEPT

/-- The fully accepting vote mapping: all three axes ACCEPT. -/
def allAccept : ReviewVotes :=
  { a := some .ACCEPT, b := some .ACCEPT, c := some .ACCEPT }

/-- Modelled from the spec: whether an edge's gate (if any) is currently
satisfied by the state — used by `available_transitions`. -/
def gateOk (s : EpochState) : Option GateId → Bool
  | none => true
  | some .consensus => has_consensus s.review_votes
  | some .consensusAndNoBlockers => has_consensus s.review_votes && s.blocker_count = 0

/-- Modelled from the spec: `available_transitions` — every outgoing edge of
the current phase whose gate (if any) is currently satisfied; edges without
a gate are always included; empty at COMPLETE. -/
def available_transitions (s : EpochState) : List Transition :=
  (transitionsFor s.current_phase).filter (fun t => gateOk s t.gate)

/-- Modelled from the spec: the collected gate-rule violation messages for a
matched edge. Both gates of the second review phase's forward edge are
evaluated independently and both messages are collected. -/
def gateViolations (s : EpochState) : Option GateId → List String
  | none => []
  | some .consensus =>
      if has_consensus s.review_votes then []
      else ["review consensus not reached: all 3 axes must vote ACCEPT"]
  | some .consensusAndNoBlockers =>
      (if has_consensus s.review_votes then []
       else ["review consensus not reached: all 3 axes must vote ACCEPT"]) ++
      (if s.blocker_count = 0 then []
       else ["unresolved blocker count is positive: all BLOCKERs must be resolved"])

/-- Modelled from the spec: `validate_advance(to_phase)` — pure,
non-mutating dry run using the identical rule set as `advance`. Checks, in
order: terminal COMPLETE state, structural edge existence, then the matched
edge's gate rules. -/
def validate_advance (s : EpochState) (toPhase : PhaseId) : List String :=
  if s.current_phase = .COMPLETE then
    ["cannot advance: epoch is already at the COMPLETE terminal phase"]
  else
    match (transitionsFor s.current_phase).find? (fun t => decide (t.to_phase = toPhase)) with
    | none =>
        ["no valid transition from " ++ phaseValue s.current_phase ++
         " to " ++ phaseValue toPhase]
    | some t => gateViolations s t.gate

/-- Modelled from the spec: the `TransitionError` raised by a failed
`advance`, carrying one or more violation messages. -/
structure TransitionErr where
  violations : List String
deriving DecidableEq, Repr

/-- Modelled from the spec: the string representation of a TransitionError
(`str(e)`), which workflow.py stores into `last_error`. -/
def transitionErrText (e : TransitionErr) : String :=
  String.intercalate "; " e.violations

/-- Modelled from the spec: `advance(to_phase, triggered_by, condition_met)`
with the caller-provided clock value `now`. On success, atomically: adds
the prior phase to `completed_phases`, sets `current_phase`, clears
`review_votes`, appends one TransitionRecord to history, clears
`last_error`, and returns the record. On failure, returns the error and the
state unchanged (all-or-nothing). -/
def advance (s : EpochState) (toPhase : PhaseId) (triggered_by condition_met : String)
    (now : Nat) : EpochState × Except TransitionErr TransitionRecord :=
  let vs := validate_advance s toPhase
  if vs.isEmpty then
    let record : TransitionRecord :=
      { from_phase := s.current_phase, to_phase := toPhase, timestamp := now,
        triggered_by := triggered_by, condition_met := condition_met }
    ({ s with
        current_phase := toPhase,
        completed_phases := insert s.current_phase s.completed_phases,
        review_votes := {},
        transition_history := s.transition_history ++ [record],
        last_error := none },
     .ok record)
  else
    (s, .error ⟨vs⟩)

/-- Modelled from the spec: parsing of the axis argument of `record_vote` —
only the exact letters A, B, C are accepted. -/
def parseAxis (axis : String) : Option Axis :=
  if axis = "A" then some .A
  else if axis = "B" then some .B
  else if axis = "C" then some .C
  else none

/-- Modelled from the spec: overwrite the vote of one axis. -/
def setVote (v : ReviewVotes) : Axis → VoteType → ReviewVotes
  | .A, vote => { v with a := some vote }
  | .B, vote => { v with b := some vote }
  | .C, vote => { v with c := some vote }

/-- Modelled from the spec: `record_vote(axis, vote)` — the axis must be
exactly "A", "B" or "C", otherwise an invalid-argument error is signalled;
a valid vote overwrites any prior vote for that axis. -/
def record_vote (s : EpochState) (axis : String) (vote : VoteType) :
    Except String EpochState :=
  match parseAxis axis with
  | some ax => .ok { s with review_votes := setVote s.review_votes ax vote }
  | none => .error ("invalid axis: " ++ axis ++ " (must be A, B or C)")

/-- Modelled from the spec: `record_blocker(resolved)` — `resolved = false`
increments `blocker_count`; `resolved = true` decrements it, clamped to a
minimum of 0 (Nat subtraction clamps exactly so). -/
def record_blocker (s : EpochState) (resolved : Bool) : EpochState :=
  if resolved then { s with blocker_count := s.blocker_count - 1 }
  else { s with blocker_count := s.blocker_count + 1 }

/-- Whether one character list is an initial segment of another. -/
def leadsChars : List Char → List Char → Bool
  | [], _ => true
  | _ :: _, [] => false
  | a :: as, b :: bs => a = b && leadsChars as bs

/-- Whether `needle` occurs as a contiguous sublist of `haystack`. -/
def containsSub (needle : List Char) : List Char → Bool
  | [] => needle.isEmpty
  | c :: rest => leadsChars needle (c :: rest) || containsSub needle rest

/-- Whether `needle` occurs as a substring of `msg` (used to state the
spec's requirements that certain messages mention a word). -/
def mentionsStr (needle msg : String) : Bool :=
  containsSub needle.data msg.data

/-- The recognized role identifiers (`RoleId` enum values). -/
def roleValues : List String :=
  ["epoch", "architect", "reviewer", "supervisor", "worker"]

/-- Modelled from the spec: `ConstraintViolation` — immutable value
`(constraint_id, message, context)`; a pure report, never raised. -/
structure ConstraintViolation where
  constraint_id : String
  message : String
  context : List (String × String) := []
deriving DecidableEq, Repr

/-- Modelled from the spec: `check_review_consensus` — at either review
phase (p4, p10), a violation tagged `C-review-consensus` when consensus is
not reached; no violation elsewhere. -/
def check_review_consensus (s : EpochState) : List ConstraintViolation :=
  if s.current_phase = .P4_REVIEW ∨ s.current_phase = .P10_CODE_REVIEW then
    if has_consensus s.review_votes then []
    else
      [{ constraint_id := "C-review-consensus",
         message := "review consensus not reached: all 3 axes must vote ACCEPT",
         context := [("phase", phaseValue s.current_phase)] }]
  else []

/-- Modelled from the spec: `check_severity_tree` — severity trees are never
valid during the first review phase (p4); violation `C-severity-not-plan`. -/
def check_severity_tree (s : EpochState) : List ConstraintViolation :=
  if s.current_phase = .P4_REVIEW then
    [{ constraint_id := "C-severity-not-plan",
       message := "severity trees are not valid during plan review p4",
       context := [("phase", phaseValue s.current_phase)] }]
  else []

/-- Modelled from the spec: `check_blocker_gate` — at the second review
phase (p10) with `blocker_count > 0`, a violation tagged `C-worker-gates`. -/
def check_blocker_gate (s : EpochState) : List ConstraintViolation :=
  if s.current_phase = .P10_CODE_REVIEW ∧ 0 < s.blocker_count then
    [{ constraint_id := "C-worker-gates",
       message := "unresolved blocker findings present: all BLOCKERs must be resolved",
       context := [("blocker_count", toString s.blocker_count)] }]
  else []

/-- Whether a string is blank (empty or whitespace only). -/
def isBlank (str : String) : Bool :=
  str.trim = ""

/-- Modelled from the spec: `check_audit_trail` — past the initial phase a
non-empty history is required (`C-audit-never-delete`), and every history
record must have non-blank `triggered_by` and `condition_met`
(`C-audit-dep-chain`). -/
def check_audit_trail (s : EpochState) : List ConstraintViolation :=
  (if s.current_phase ≠ .P1_REQUEST ∧ s.transition_history = [] then
    [{ constraint_id := "C-audit-never-delete",
       message := "audit trail is empty past the initial phase",
       context := [] }]
   else []) ++
  s.transition_history.flatMap (fun r =>
    if isBlank r.triggered_by ∨ isBlank r.condition_met then
      [{ constraint_id := "C-audit-dep-chain",
         message := "transition record is missing triggered_by or condition_met",
         context := [] }]
    else [])

/-- Modelled from the spec: `check_role_ownership` — `current_role` must be
a recognized RoleId; the violation is tagged `C-vertical-slices` as the
tests require. -/
def check_role_ownership (s : EpochState) : List ConstraintViolation :=
  if s.current_role ∈ roleValues then []
  else
    [{ constraint_id := "C-vertical-slices",
       message := "current role is not a recognized RoleId",
       context := [("role", s.current_role)] }]

/-- Modelled from the spec: `check_state_constraints(state)` — runs every
state-scoped predicate and concatenates their violations; no predicate is
skipped because an earlier one failed (no short-circuit). -/
def check_state_constraints (s : EpochState) : List ConstraintViolation :=
  check_review_consensus s ++
  check_severity_tree s ++
  check_blocker_gate s ++
  check_audit_trail s ++
  check_role_ownership s

/-- Modelled from the spec: transition-scoped review-consensus predicate —
a violation for the specific proposed forward transition out of a review
phase when consensus is not reached. -/
def check_transition_review_consensus (s : EpochState) (toPhase : PhaseId) :
    List ConstraintViolation :=
  if (s.current_phase = .P4_REVIEW ∧ toPhase = .P5_UAT) ∨
     (s.current_phase = .P10_CODE_REVIEW ∧ toPhase = .P11_IMPL_UAT) then
    if has_consensus s.review_votes then []
    else
      [{ constraint_id := "C-review-consensus",
         message := "review consensus not reached: all 3 axes must vote ACCEPT",
         context := [("phase", phaseValue s.current_phase)] }]
  else []

/-- Modelled from the spec: `check_handoff_required` — the two designated
actor-change edges (p7 → p8 and p9 → p10) trigger a handoff requirement
tagged `C-handoff-skill-invocation`. -/
def check_handoff_required (fromPhase toPhase : PhaseId) : List ConstraintViolation :=
  if (fromPhase = .P7_HANDOFF ∧ toPhase = .P8_IMPL_PLAN) ∨
     (fromPhase = .P9_SLICE ∧ toPhase = .P10_CODE_REVIEW) then
    [{ constraint_id := "C-handoff-skill-invocation",
       message := "actor-change transition requires a handoff skill invocation",
       context := [("from_phase", phaseValue fromPhase), ("to_phase", phaseValue toPhase)] }]
  else []

/-- Modelled from the spec: transition-scoped blocker gate — the specific
gated edge p10 → p11 is blocked while `blocker_count > 0`
(`C-worker-gates`). -/
def check_transition_blocker_gate (s : EpochState) (toPhase : PhaseId) :
    List ConstraintViolation :=
  if s.current_phase = .P10_CODE_REVIEW ∧ toPhase = .P11_IMPL_UAT ∧ 0 < s.blocker_count then
    [{ constraint_id := "C-worker-gates",
       message := "unresolved blocker findings block this transition",
       context := [("blocker_count", toString s.blocker_count)] }]
  else []

/-- Modelled from the spec: `check_transition_constraints(state, to_phase)`
— runs every transition-scoped predicate and concatenates the violations,
without short-circuiting. -/
def check_transition_constraints (s : EpochState) (toPhase : PhaseId) :
    List ConstraintViolation :=
  check_transition_review_consensus s toPhase ++
  check_handoff_required s.current_phase toPhase ++
  check_transition_blocker_gate s toPhase

/-- Modelled from the spec: `check_transition` — the deprecated
backwards-compatibility alias, which delegates to
`check_transition_constraints`. -/
def check_transition (s : EpochState) (toPhase : PhaseId) :
    List ConstraintViolation :=
  check_transition_constraints s toPhase

/-- From source workflow.py: `PhaseAdvanceSignal` — the advance_phase signal
payload `(to_phase, triggered_by, condition_met)`. -/
structure PhaseAdvanceSignal where
  to_phase : PhaseId
  triggered_by : String
  condition_met : String
deriving DecidableEq, Repr

/-- From source workflow.py: the in-place update
`transition_history[-1] = deterministic_record`, guarded by the
truthiness check on the list — replace the final element when the list is
non-empty, leave an empty list unchanged. -/
def replaceLast (l : List TransitionRecord) (x : TransitionRecord) :
    List TransitionRecord :=
  if l.isEmpty then l else l.dropLast ++ [x]

/-- From source workflow.py (EpochWorkflow.run, one advance signal): check
constraints out of band, try `advance` with the machine clock; on
TransitionError store `str(e)` into `state.last_error` and keep the phase;
on success rebuild the record with the deterministic workflow timestamp and
replace the last history entry with it. -/
def workflowProcessAdvance (s : EpochState) (sig : PhaseAdvanceSignal)
    (machineNow wfNow : Nat) : EpochState :=
  match advance s sig.to_phase sig.triggered_by sig.condition_met machineNow with
  | (s1, .error e) => { s1 with last_error := some (transitionErrText e) }
  | (s1, .ok record) =>
      let deterministic_record : TransitionRecord := { record with timestamp := wfNow }
      { s1 with
          transition_history := replaceLast s1.transition_history deterministic_record }

/-- From source interfaces.py: `ModelId` — models.dev composite model
identifier with `provider` and `model` components. -/
structure ModelId where
  provider : String
  model : String
deriving DecidableEq, Repr

/-- From source interfaces.py: `str(ModelId)` — the
`provider/model` rendering. -/
def modelIdStr (m : ModelId) : String :=
  m.provider ++ "/" ++ m.model

/-- From source interfaces.py: the character-level behaviour of Python's
`s.partition("/")` restricted to what `ModelId.parse` uses — split at the
first slash, returning the text before it and everything after it, or
`none` when no slash occurs. -/
def partitionFirstSlash : List Char → Option (List Char × List Char)
  | [] => none
  | ch :: rest =>
      if ch = '/' then some ([], rest)
      else (partitionFirstSlash rest).map (fun pm => (ch :: pm.1, pm.2))

/-- From source interfaces.py: `ModelId.parse` — split on the first "/"
only; raise ValueError (here: `none`) when the string has no "/" or the
provider or model part is empty after splitting. -/
def ModelId.parse (s : String) : Option ModelId :=
  match partitionFirstSlash s.data with
  | none => none
  | some (p, m) =>
      if p = [] ∨ m = [] then none
      else some { provider := String.mk p, model := String.mk m }

/-- The violation messages carried by a failed advance result (empty for a
successful one). -/
def violationsOf : Except TransitionErr TransitionRecord → List String
  | .ok _ => []
  | .error e => e.violations

/-- Recording an ACCEPT vote on each of the three axes through
`record_vote`, as the test helpers do before a gated forward advance. -/
def castAllAccept (s : EpochState) : EpochState :=
  match record_vote s "A" .ACCEPT with
  | .error _ => s
  | .ok s1 =>
    match record_vote s1 "B" .ACCEPT with
    | .error _ => s1
    | .ok s2 =>
      match record_vote s2 "C" .ACCEPT with
      | .error _ => s2
      | .ok s3 => s3

/-- One step of a forward-only traversal with all gates satisfied: at a
review phase the three ACCEPT votes are recorded first, then `advance` is
called once for the forward edge. -/
def gatedStep (s : EpochState) (toPhase : PhaseId) (tb cm : String) (now : Nat) :
    Except TransitionErr EpochState :=
  let s' :=
    if s.current_phase = .P4_REVIEW ∨ s.current_phase = .P10_CODE_REVIEW then
      castAllAccept s
    else s
  match advance s' toPhase tb cm now with
  | (_, .error e) => .error e
  | (s1, .ok _) => .ok s1

/-- A forward-only traversal: a sequence of gated advance steps, each with
its own target phase, triggering role, condition string and timestamp. -/
def runForward (s : EpochState) : List (PhaseId × String × String × Nat) →
    Except TransitionErr EpochState
  | [] => .ok s
  | step :: rest =>
      match gatedStep s step.1 step.2.1 step.2.2.1 step.2.2.2 with
      | .error e => .error e
      | .ok s1 => runForward s1 rest

/-- The twelve forward edges of the phase graph, paired with arbitrary
per-step advance inputs (triggered_by, condition_met, timestamp). -/
def c1Steps (inp : Fin 12 → String × String × Nat) :
    List (PhaseId × String × String × Nat) :=
  [(.P2_ELICIT, inp 0), (.P3_PROPOSE, inp 1), (.P4_REVIEW, inp 2),
   (.P5_UAT, inp 3), (.P6_RATIFY, inp 4), (.P7_HANDOFF, inp 5),
   (.P8_IMPL_PLAN, inp 6), (.P9_SLICE, inp 7), (.P10_CODE_REVIEW, inp 8),
   (.P11_IMPL_UAT, inp 9), (.P12_LANDING, inp 10), (.COMPLETE, inp 11)]

/-- The set of all 12 non-terminal phases. -/
def nonTerminalPhases : Finset PhaseId :=
  {.P1_REQUEST, .P2_ELICIT, .P3_PROPOSE, .P4_REVIEW, .P5_UAT, .P6_RATIFY,
   .P7_HANDOFF, .P8_IMPL_PLAN, .P9_SLICE, .P10_CODE_REVIEW, .P11_IMPL_UAT,
   .P12_LANDING}

end AuraProtocol

namespace AuraProtocol

/-- Claim C1: every valid forward-only traversal of the epoch state machine
from the initial phase to COMPLETE — one `advance` per forward edge, gates
satisfied by three ACCEPT votes at each review phase, with arbitrary
triggering roles, condition strings and timestamps — succeeds and produces
exactly 12 transition records, `completed_phases` equal to the set of all
12 non-terminal phases, and an empty `available_transitions` at COMPLETE. -/
theorem c1_forward_traversal (eid : String) (inp : Fin 12 → String × String × Nat) :
    match runForward (initEpochState eid) (c1Steps inp) with
    | .error _ => False
    | .ok s =>
        s.current_phase = .COMPLETE ∧
        s.transition_history.length = 12 ∧
        s.completed_phases = nonTerminalPhases ∧
        available_transitions s = [] := by
  have e1 : gatedStep (initEpochState eid) .P2_ELICIT (inp 0).1 (inp 0).2.1 (inp 0).2.2 = .ok ({ epoch_id := eid, current_phase := .P2_ELICIT, completed_phases := insert PhaseId.P1_REQUEST ((∅ : Finset PhaseId)), current_role := "epoch", review_votes := { a := none, b := none, c := none }, blocker_count := 0, transition_history := [{ from_phase := .P1_REQUEST, to_phase := .P2_ELICIT, timestamp := (inp 0).2.2, triggered_by := (inp 0).1, condition_met := (inp 0).2.1 }], last_error := none } : EpochState) := rfl
  have e2 : gatedStep ({ epoch_id := eid, current_phase := .P2_ELICIT, completed_phases := insert PhaseId.P1_REQUEST ((∅ : Finset PhaseId)), current_role := "epoch", review_votes := { a := none, b := none, c := none }, blocker_count := 0, transition_history := [{ from_phase := .P1_REQUEST, to_phase := .P2_ELICIT, timestamp := (inp 0).2.2, triggered_by := (inp 0).1, condition_met := (inp 0).2.1 }], last_error := none } : EpochState) .P3_PROPOSE (inp 1).1 (inp 1).2.1 (inp 1).2.2 = .ok ({ epoch_id := eid, current_phase := .P3_PROPOSE, completed_phases := insert PhaseId.P2_ELICIT (insert PhaseId.P1_REQUEST ((∅ : Finset PhaseId))), current_role := "epoch", review_votes := { a := none, b := none, c := none }, blocker_count := 0, transition_history := [{ from_phase := .P1_REQUEST, to_phase := .P2_ELICIT, timestamp := (inp 0).2.2, triggered_by := (inp 0).1, condition_met := (inp 0).2.1 }, { from_phase := .P2_ELICIT, to_phase := .P3_PROPOSE, timestamp := (inp 1).2.2, triggered_by := (inp 1).1, condition_met := (inp 1).2.1 }], last_error := none } : EpochState) := rfl
  have e3 : gatedStep ({ epoch_id := eid, current_phase := .P3_PROPOSE, completed_phases := insert PhaseId.P2_ELICIT (insert PhaseId.P1_REQUEST ((∅ : Finset PhaseId))), current_role := "epoch", review_votes := { a := none, b := none, c := none }, blocker_count := 0, transition_history := [{ from_phase := .P1_REQUEST, to_phase := .P2_ELICIT, timestamp := (inp 0).2.2, triggered_by := (inp 0).1, condition_met := (inp 0).2.1 }, { from_phase := .P2_ELICIT, to_phase := .P3_PROPOSE, timestamp := (inp 1).2.2, triggered_by := (inp 1).1, condition_met := (inp 1).2.1 }], last_error := none } : EpochState) .P4_REVIEW (inp 2).1 (inp 2).2.1 (inp 2).2.2 = .ok ({ epoch_id := eid, current_phase := .P4_REVIEW, completed_phases := insert PhaseId.P3_PROPOSE (insert PhaseId.P2_ELICIT (insert PhaseId.P1_REQUEST ((∅ : Finset PhaseId)))), current_role := "epoch", review_votes := { a := none, b := none, c := none }, blocker_count := 0, transition_history := [{ from_phase := .P1_REQUEST, to_phase := .P2_ELICIT, timestamp := (inp 0).2.2, triggered_by := (inp 0).1, condition_met := (inp 0).2.1 }, { from_phase := .P2_ELICIT, to_phase := .P3_PROPOSE, timestamp := (inp 1).2.2, triggered_by := (inp 1).1, condition_met := (inp 1).2.1 }, { from_phase := .P3_PROPOSE, to_phase := .P4_REVIEW, timestamp := (inp 2).2.2, triggered_by := (inp 2).1, condition_met := (inp 2).2.1 }], last_error := none } : EpochState) := rfl
  have e4 : gatedStep ({ epoch_id := eid, current_phase := .P4_REVIEW, completed_phases := insert PhaseId.P3_PROPOSE (insert PhaseId.P2_ELICIT (insert PhaseId.P1_REQUEST ((∅ : Finset PhaseId)))), current_role := "epoch", review_votes := { a := none, b := none, c := none }, blocker_count := 0, transition_history := [{ from_phase := .P1_REQUEST, to_phase := .P2_ELICIT, timestamp := (inp 0).2.2, triggered_by := (inp 0).1, condition_met := (inp 0).2.1 }, { from_phase := .P2_ELICIT, to_phase := .P3_PROPOSE, timestamp := (inp 1).2.2, triggered_by := (inp 1).1, condition_met := (inp 1).2.1 }, { from_phase := .P3_PROPOSE, to_phase := .P4_REVIEW, timestamp := (inp 2).2.2, triggered_by := (inp 2).1, condition_met := (inp 2).2.1 }], last_error := none } : EpochState) .P5_UAT (inp 3).1 (inp 3).2.1 (inp 3).2.2 = .ok ({ epoch_id := eid, current_phase := .P5_UAT, completed_phases := insert PhaseId.P4_REVIEW (insert PhaseId.P3_PROPOSE (insert PhaseId.P2_ELICIT (insert PhaseId.P1_REQUEST ((∅ : Finset PhaseId))))), current_role := "epoch", review_votes := { a := none, b := none, c := none }, blocker_count := 0, transition_history := [{ from_phase := .P1_REQUEST, to_phase := .P2_ELICIT, timestamp := (inp 0).2.2, triggered_by := (inp 0).1, condition_met := (inp 0).2.1 }, { from_phase := .P2_ELICIT, to_phase := .P3_PROPOSE, timestamp := (inp 1).2.2, triggered_by := (inp 1).1, condition_met := (inp 1).2.1 }, { from_phase := .P3_PROPOSE, to_phase := .P4_REVIEW, timestamp := (inp 2).2.2, triggered_by := (inp 2).1, condition_met := (inp 2).2.1 }, { from_phase := .P4_REVIEW, to_phase := .P5_UAT, timestamp := (inp 3).2.2, triggered_by := (inp 3).1, condition_met := (inp 3).2.1 }], last_error := none } : EpochState) := rfl
  have e5 : gatedStep ({ epoch_id := eid, current_phase := .P5_UAT, completed_phases := insert PhaseId.P4_REVIEW (insert PhaseId.P3_PROPOSE (insert PhaseId.P2_ELICIT (insert PhaseId.P1_REQUEST ((∅ : Finset PhaseId))))), current_role := "epoch", review_votes := { a := none, b := none, c := none }, blocker_count := 0, transition_history := [{ from_phase := .P1_REQUEST, to_phase := .P2_ELICIT, timestamp := (inp 0).2.2, triggered_by := (inp 0).1, condition_met := (inp 0).2.1 }, { from_phase := .P2_ELICIT, to_phase := .P3_PROPOSE, timestamp := (inp 1).2.2, triggered_by := (inp 1).1, condition_met := (inp 1).2.1 }, { from_phase := .P3_PROPOSE, to_phase := .P4_REVIEW, timestamp := (inp 2).2.2, triggered_by := (inp 2).1, condition_met := (inp 2).2.1 }, { from_phase := .P4_REVIEW, to_phase := .P5_UAT, timestamp := (inp 3).2.2, triggered_by := (inp 3).1, condition_met := (inp 3).2.1 }], last_error := none } : EpochState) .P6_RATIFY (inp 4).1 (inp 4).2.1 (inp 4).2.2 = .ok ({ epoch_id := eid, current_phase := .P6_RATIFY, completed_phases := insert PhaseId.P5_UAT (insert PhaseId.P4_REVIEW (insert PhaseId.P3_PROPOSE (insert PhaseId.P2_ELICIT (insert PhaseId.P1_REQUEST ((∅ : Finset PhaseId)))))), current_role := "epoch", review_votes := { a := none, b := none, c := none }, blocker_count := 0, transition_history := [{ from_phase := .P1_REQUEST, to_phase := .P2_ELICIT, timestamp := (inp 0).2.2, triggered_by := (inp 0).1, condition_met := (inp 0).2.1 }, { from_phase := .P2_ELICIT, to_phase := .P3_PROPOSE, timestamp := (inp 1).2.2, triggered_by := (inp 1).1, condition_met := (inp 1).2.1 }, { from_phase := .P3_PROPOSE, to_phase := .P4_REVIEW, timestamp := (inp 2).2.2, triggered_by := (inp 2).1, condition_met := (inp 2).2.1 }, { from_phase := .P4_REVIEW, to_phase := .P5_UAT, timestamp := (inp 3).2.2, triggered_by := (inp 3).1, condition_met := (inp 3).2.1 }, { from_phase := .P5_UAT, to_phase := .P6_RATIFY, timestamp := (inp 4).2.2, triggered_by := (inp 4).1, condition_met := (inp 4).2.1 }], last_error := none } : EpochState) := rfl
  have e6 : gatedStep ({ epoch_id := eid, current_phase := .P6_RATIFY, completed_phases := insert PhaseId.P5_UAT (insert PhaseId.P4_REVIEW (insert PhaseId.P3_PROPOSE (insert PhaseId.P2_ELICIT (insert PhaseId.P1_REQUEST ((∅ : Finset PhaseId)))))), current_role := "epoch", review_votes := { a := none, b := none, c := none }, blocker_count := 0, transition_history := [{ from_phase := .P1_REQUEST, to_phase := .P2_ELICIT, timestamp := (inp 0).2.2, triggered_by := (inp 0).1, condition_met := (inp 0).2.1 }, { from_phase := .P2_ELICIT, to_phase := .P3_PROPOSE, timestamp := (inp 1).2.2, triggered_by := (inp 1).1, condition_met := (inp 1).2.1 }, { from_phase := .P3_PROPOSE, to_phase := .P4_REVIEW, timestamp := (inp 2).2.2, triggered_by := (inp 2).1, condition_met := (inp 2).2.1 }, { from_phase := .P4_REVIEW, to_phase := .P5_UAT, timestamp := (inp 3).2.2, triggered_by := (inp 3).1, condition_met := (inp 3).2.1 }, { from_phase := .P5_UAT, to_phase := .P6_RATIFY, timestamp := (inp 4).2.2, triggered_by := (inp 4).1, condition_met := (inp 4).2.1 }], last_error := none } : EpochState) .P7_HANDOFF (inp 5).1 (inp 5).2.1 (inp 5).2.2 = .ok ({ epoch_id := eid, current_phase := .P7_HANDOFF, completed_phases := insert PhaseId.P6_RATIFY (insert PhaseId.P5_UAT (insert PhaseId.P4_REVIEW (insert PhaseId.P3_PROPOSE (insert PhaseId.P2_ELICIT (insert PhaseId.P1_REQUEST ((∅ : Finset PhaseId))))))), current_role := "epoch", review_votes := { a := none, b := none, c := none }, blocker_count := 0, transition_history := [{ from_phase := .P1_REQUEST, to_phase := .P2_ELICIT, timestamp := (inp 0).2.2, triggered_by := (inp 0).1, condition_met := (inp 0).2.1 }, { from_phase := .P2_ELICIT, to_phase := .P3_PROPOSE, timestamp := (inp 1).2.2, triggered_by := (inp 1).1, condition_met := (inp 1).2.1 }, { from_phase := .P3_PROPOSE, to_phase := .P4_REVIEW, timestamp := (inp 2).2.2, triggered_by := (inp 2).1, condition_met := (inp 2).2.1 }, { from_phase := .P4_REVIEW, to_phase := .P5_UAT, timestamp := (inp 3).2.2, triggered_by := (inp 3).1, condition_met := (inp 3).2.1 }, { from_phase := .P5_UAT, to_phase := .P6_RATIFY, timestamp := (inp 4).2.2, triggered_by := (inp 4).1, condition_met := (inp 4).2.1 }, { from_phase := .P6_RATIFY, to_phase := .P7_HANDOFF, timestamp := (inp 5).2.2, triggered_by := (inp 5).1, condition_met := (inp 5).2.1 }], last_error := none } : EpochState) := rfl
  have e7 : gatedStep ({ epoch_id := eid, current_phase := .P7_HANDOFF, completed_phases := insert PhaseId.P6_RATIFY (insert PhaseId.P5_UAT (insert PhaseId.P4_REVIEW (insert PhaseId.P3_PROPOSE (insert PhaseId.P2_ELICIT (insert PhaseId.P1_REQUEST ((∅ : Finset PhaseId))))))), current_role := "epoch", review_votes := { a := none, b := none, c := none }, blocker_count := 0, transition_history := [{ from_phase := .P1_REQUEST, to_phase := .P2_ELICIT, timestamp := (inp 0).2.2, triggered_by := (inp 0).1, condition_met := (inp 0).2.1 }, { from_phase := .P2_ELICIT, to_phase := .P3_PROPOSE, timestamp := (inp 1).2.2, triggered_by := (inp 1).1, condition_met := (inp 1).2.1 }, { from_phase := .P3_PROPOSE, to_phase := .P4_REVIEW, timestamp := (inp 2).2.2, triggered_by := (inp 2).1, condition_met := (inp 2).2.1 }, { from_phase := .P4_REVIEW, to_phase := .P5_UAT, timestamp := (inp 3).2.2, triggered_by := (inp 3).1, condition_met := (inp 3).2.1 }, { from_phase := .P5_UAT, to_phase := .P6_RATIFY, timestamp := (inp 4).2.2, triggered_by := (inp 4).1, condition_met := (inp 4).2.1 }, { from_phase := .P6_RATIFY, to_phase := .P7_HANDOFF, timestamp := (inp 5).2.2, triggered_by := (inp 5).1, condition_met := (inp 5).2.1 }], last_error := none } : EpochState) .P8_IMPL_PLAN (inp 6).1 (inp 6).2.1 (inp 6).2.2 = .ok ({ epoch_id := eid, current_phase := .P8_IMPL_PLAN, completed_phases := insert PhaseId.P7_HANDOFF (insert PhaseId.P6_RATIFY (insert PhaseId.P5_UAT (insert PhaseId.P4_REVIEW (insert PhaseId.P3_PROPOSE (insert PhaseId.P2_ELICIT (insert PhaseId.P1_REQUEST ((∅ : Finset PhaseId)))))))), current_role := "epoch", review_votes := { a := none, b := none, c := none }, blocker_count := 0, transition_history := [{ from_phase := .P1_REQUEST, to_phase := .P2_ELICIT, timestamp := (inp 0).2.2, triggered_by := (inp 0).1, condition_met := (inp 0).2.1 }, { from_phase := .P2_ELICIT, to_phase := .P3_PROPOSE, timestamp := (inp 1).2.2, triggered_by := (inp 1).1, condition_met := (inp 1).2.1 }, { from_phase := .P3_PROPOSE, to_phase := .P4_REVIEW, timestamp := (inp 2).2.2, triggered_by := (inp 2).1, condition_met := (inp 2).2.1 }, { from_phase := .P4_REVIEW, to_phase := .P5_UAT, timestamp := (inp 3).2.2, triggered_by := (inp 3).1, condition_met := (inp 3).2.1 }, { from_phase := .P5_UAT, to_phase := .P6_RATIFY, timestamp := (inp 4).2.2, triggered_by := (inp 4).1, condition_met := (inp 4).2.1 }, { from_phase := .P6_RATIFY, to_phase := .P7_HANDOFF, timestamp := (inp 5).2.2, triggered_by := (inp 5).1, condition_met := (inp 5).2.1 }, { from_phase := .P7_HANDOFF, to_phase := .P8_IMPL_PLAN, timestamp := (inp 6).2.2, triggered_by := (inp 6).1, condition_met := (inp 6).2.1 }], last_error := none } : EpochState) := rfl
  have e8 : gatedStep ({ epoch_id := eid, current_phase := .P8_IMPL_PLAN, completed_phases := insert PhaseId.P7_HANDOFF (insert PhaseId.P6_RATIFY (insert PhaseId.P5_UAT (insert PhaseId.P4_REVIEW (insert PhaseId.P3_PROPOSE (insert PhaseId.P2_ELICIT (insert PhaseId.P1_REQUEST ((∅ : Finset PhaseId)))))))), current_role := "epoch", review_votes := { a := none, b := none, c := none }, blocker_count := 0, transition_history := [{ from_phase := .P1_REQUEST, to_phase := .P2_ELICIT, timestamp := (inp 0).2.2, triggered_by := (inp 0).1, condition_met := (inp 0).2.1 }, { from_phase := .P2_ELICIT, to_phase := .P3_PROPOSE, timestamp := (inp 1).2.2, triggered_by := (inp 1).1, condition_met := (inp 1).2.1 }, { from_phase := .P3_PROPOSE, to_phase := .P4_REVIEW, timestamp := (inp 2).2.2, triggered_by := (inp 2).1, condition_met := (inp 2).2.1 }, { from_phase := .P4_REVIEW, to_phase := .P5_UAT, timestamp := (inp 3).2.2, triggered_by := (inp 3).1, condition_met := (inp 3).2.1 }, { from_phase := .P5_UAT, to_phase := .P6_RATIFY, timestamp := (inp 4).2.2, triggered_by := (inp 4).1, condition_met := (inp 4).2.1 }, { from_phase := .P6_RATIFY, to_phase := .P7_HANDOFF, timestamp := (inp 5).2.2, triggered_by := (inp 5).1, condition_met := (inp 5).2.1 }, { from_phase := .P7_HANDOFF, to_phase := .P8_IMPL_PLAN, timestamp := (inp 6).2.2, triggered_by := (inp 6).1, condition_met := (inp 6).2.1 }], last_error := none } : EpochState) .P9_SLICE (inp 7).1 (inp 7).2.1 (inp 7).2.2 = .ok ({ epoch_id := eid, current_phase := .P9_SLICE, completed_phases := insert PhaseId.P8_IMPL_PLAN (insert PhaseId.P7_HANDOFF (insert PhaseId.P6_RATIFY (insert PhaseId.P5_UAT (insert PhaseId.P4_REVIEW (insert PhaseId.P3_PROPOSE (insert PhaseId.P2_ELICIT (insert PhaseId.P1_REQUEST ((∅ : Finset PhaseId))))))))), current_role := "epoch", review_votes := { a := none, b := none, c := none }, blocker_count := 0, transition_history := [{ from_phase := .P1_REQUEST, to_phase := .P2_ELICIT, timestamp := (inp 0).2.2, triggered_by := (inp 0).1, condition_met := (inp 0).2.1 }, { from_phase := .P2_ELICIT, to_phase := .P3_PROPOSE, timestamp := (inp 1).2.2, triggered_by := (inp 1).1, condition_met := (inp 1).2.1 }, { from_phase := .P3_PROPOSE, to_phase := .P4_REVIEW, timestamp := (inp 2).2.2, triggered_by := (inp 2).1, condition_met := (inp 2).2.1 }, { from_phase := .P4_REVIEW, to_phase := .P5_UAT, timestamp := (inp 3).2.2, triggered_by := (inp 3).1, condition_met := (inp 3).2.1 }, { from_phase := .P5_UAT, to_phase := .P6_RATIFY, timestamp := (inp 4).2.2, triggered_by := (inp 4).1, condition_met := (inp 4).2.1 }, { from_phase := .P6_RATIFY, to_phase := .P7_HANDOFF, timestamp := (inp 5).2.2, triggered_by := (inp 5).1, condition_met := (inp 5).2.1 }, { from_phase := .P7_HANDOFF, to_phase := .P8_IMPL_PLAN, timestamp := (inp 6).2.2, triggered_by := (inp 6).1, condition_met := (inp 6).2.1 }, { from_phase := .P8_IMPL_PLAN, to_phase := .P9_SLICE, timestamp := (inp 7).2.2, triggered_by := (inp 7).1, condition_met := (inp 7).2.1 }], last_error := none } : EpochState) := rfl
  have e9 : gatedStep ({ epoch_id := eid, current_phase := .P9_SLICE, completed_phases := insert PhaseId.P8_IMPL_PLAN (insert PhaseId.P7_HANDOFF (insert PhaseId.P6_RATIFY (insert PhaseId.P5_UAT (insert PhaseId.P4_REVIEW (insert PhaseId.P3_PROPOSE (insert PhaseId.P2_ELICIT (insert PhaseId.P1_REQUEST ((∅ : Finset PhaseId))))))))), current_role := "epoch", review_votes := { a := none, b := none, c := none }, blocker_count := 0, transition_history := [{ from_phase := .P1_REQUEST, to_phase := .P2_ELICIT, timestamp := (inp 0).2.2, triggered_by := (inp 0).1, condition_met := (inp 0).2.1 }, { from_phase := .P2_ELICIT, to_phase := .P3_PROPOSE, timestamp := (inp 1).2.2, triggered_by := (inp 1).1, condition_met := (inp 1).2.1 }, { from_phase := .P3_PROPOSE, to_phase := .P4_REVIEW, timestamp := (inp 2).2.2, triggered_by := (inp 2).1, condition_met := (inp 2).2.1 }, { from_phase := .P4_REVIEW, to_phase := .P5_UAT, timestamp := (inp 3).2.2, triggered_by := (inp 3).1, condition_met := (inp 3).2.1 }, { from_phase := .P5_UAT, to_phase := .P6_RATIFY, timestamp := (inp 4).2.2, triggered_by := (inp 4).1, condition_met := (inp 4).2.1 }, { from_phase := .P6_RATIFY, to_phase := .P7_HANDOFF, timestamp := (inp 5).2.2, triggered_by := (inp 5).1, condition_met := (inp 5).2.1 }, { from_phase := .P7_HANDOFF, to_phase := .P8_IMPL_PLAN, timestamp := (inp 6).2.2, triggered_by := (inp 6).1, condition_met := (inp 6).2.1 }, { from_phase := .P8_IMPL_PLAN, to_phase := .P9_SLICE, timestamp := (inp 7).2.2, triggered_by := (inp 7).1, condition_met := (inp 7).2.1 }], last_error := none } : EpochState) .P10_CODE_REVIEW (inp 8).1 (inp 8).2.1 (inp 8).2.2 = .ok ({ epoch_id := eid, current_phase := .P10_CODE_REVIEW, completed_phases := insert PhaseId.P9_SLICE (insert PhaseId.P8_IMPL_PLAN (insert PhaseId.P7_HANDOFF (insert PhaseId.P6_RATIFY (insert PhaseId.P5_UAT (insert PhaseId.P4_REVIEW (insert PhaseId.P3_PROPOSE (insert PhaseId.P2_ELICIT (insert PhaseId.P1_REQUEST ((∅ : Finset PhaseId)))))))))), current_role := "epoch", review_votes := { a := none, b := none, c := none }, blocker_count := 0, transition_history := [{ from_phase := .P1_REQUEST, to_phase := .P2_ELICIT, timestamp := (inp 0).2.2, triggered_by := (inp 0).1, condition_met := (inp 0).2.1 }, { from_phase := .P2_ELICIT, to_phase := .P3_PROPOSE, timestamp := (inp 1).2.2, triggered_by := (inp 1).1, condition_met := (inp 1).2.1 }, { from_phase := .P3_PROPOSE, to_phase := .P4_REVIEW, timestamp := (inp 2).2.2, triggered_by := (inp 2).1, condition_met := (inp 2).2.1 }, { from_phase := .P4_REVIEW, to_phase := .P5_UAT, timestamp := (inp 3).2.2, triggered_by := (inp 3).1, condition_met := (inp 3).2.1 }, { from_phase := .P5_UAT, to_phase := .P6_RATIFY, timestamp := (inp 4).2.2, triggered_by := (inp 4).1, condition_met := (inp 4).2.1 }, { from_phase := .P6_RATIFY, to_phase := .P7_HANDOFF, timestamp := (inp 5).2.2, triggered_by := (inp 5).1, condition_met := (inp 5).2.1 }, { from_phase := .P7_HANDOFF, to_phase := .P8_IMPL_PLAN, timestamp := (inp 6).2.2, triggered_by := (inp 6).1, condition_met := (inp 6).2.1 }, { from_phase := .P8_IMPL_PLAN, to_phase := .P9_SLICE, timestamp := (inp 7).2.2, triggered_by := (inp 7).1, condition_met := (inp 7).2.1 }, { from_phase := .P9_SLICE, to_phase := .P10_CODE_REVIEW, timestamp := (inp 8).2.2, triggered_by := (inp 8).1, condition_met := (inp 8).2.1 }], last_error := none } : EpochState) := rfl
  have e10 : gatedStep ({ epoch_id := eid, current_phase := .P10_CODE_REVIEW, completed_phases := insert PhaseId.P9_SLICE (insert PhaseId.P8_IMPL_PLAN (insert PhaseId.P7_HANDOFF (insert PhaseId.P6_RATIFY (insert PhaseId.P5_UAT (insert PhaseId.P4_REVIEW (insert PhaseId.P3_PROPOSE (insert PhaseId.P2_ELICIT (insert PhaseId.P1_REQUEST ((∅ : Finset PhaseId)))))))))), current_role := "epoch", review_votes := { a := none, b := none, c := none }, blocker_count := 0, transition_history := [{ from_phase := .P1_REQUEST, to_phase := .P2_ELICIT, timestamp := (inp 0).2.2, triggered_by := (inp 0).1, condition_met := (inp 0).2.1 }, { from_phase := .P2_ELICIT, to_phase := .P3_PROPOSE, timestamp := (inp 1).2.2, triggered_by := (inp 1).1, condition_met := (inp 1).2.1 }, { from_phase := .P3_PROPOSE, to_phase := .P4_REVIEW, timestamp := (inp 2).2.2, triggered_by := (inp 2).1, condition_met := (inp 2).2.1 }, { from_phase := .P4_REVIEW, to_phase := .P5_UAT, timestamp := (inp 3).2.2, triggered_by := (inp 3).1, condition_met := (inp 3).2.1 }, { from_phase := .P5_UAT, to_phase := .P6_RATIFY, timestamp := (inp 4).2.2, triggered_by := (inp 4).1, condition_met := (inp 4).2.1 }, { from_phase := .P6_RATIFY, to_phase := .P7_HANDOFF, timestamp := (inp 5).2.2, triggered_by := (inp 5).1, condition_met := (inp 5).2.1 }, { from_phase := .P7_HANDOFF, to_phase := .P8_IMPL_PLAN, timestamp := (inp 6).2.2, triggered_by := (inp 6).1, condition_met := (inp 6).2.1 }, { from_phase := .P8_IMPL_PLAN, to_phase := .P9_SLICE, timestamp := (inp 7).2.2, triggered_by := (inp 7).1, condition_met := (inp 7).2.1 }, { from_phase := .P9_SLICE, to_phase := .P10_CODE_REVIEW, timestamp := (inp 8).2.2, triggered_by := (inp 8).1, condition_met := (inp 8).2.1 }], last_error := none } : EpochState) .P11_IMPL_UAT (inp 9).1 (inp 9).2.1 (inp 9).2.2 = .ok ({ epoch_id := eid, current_phase := .P11_IMPL_UAT, completed_phases := insert PhaseId.P10_CODE_REVIEW (insert PhaseId.P9_SLICE (insert PhaseId.P8_IMPL_PLAN (insert PhaseId.P7_HANDOFF (insert PhaseId.P6_RATIFY (insert PhaseId.P5_UAT (insert PhaseId.P4_REVIEW (insert PhaseId.P3_PROPOSE (insert PhaseId.P2_ELICIT (insert PhaseId.P1_REQUEST ((∅ : Finset PhaseId))))))))))), current_role := "epoch", review_votes := { a := none, b := none, c := none }, blocker_count := 0, transition_history := [{ from_phase := .P1_REQUEST, to_phase := .P2_ELICIT, timestamp := (inp 0).2.2, triggered_by := (inp 0).1, condition_met := (inp 0).2.1 }, { from_phase := .P2_ELICIT, to_phase := .P3_PROPOSE, timestamp := (inp 1).2.2, triggered_by := (inp 1).1, condition_met := (inp 1).2.1 }, { from_phase := .P3_PROPOSE, to_phase := .P4_REVIEW, timestamp := (inp 2).2.2, triggered_by := (inp 2).1, condition_met := (inp 2).2.1 }, { from_phase := .P4_REVIEW, to_phase := .P5_UAT, timestamp := (inp 3).2.2, triggered_by := (inp 3).1, condition_met := (inp 3).2.1 }, { from_phase := .P5_UAT, to_phase := .P6_RATIFY, timestamp := (inp 4).2.2, triggered_by := (inp 4).1, condition_met := (inp 4).2.1 }, { from_phase := .P6_RATIFY, to_phase := .P7_HANDOFF, timestamp := (inp 5).2.2, triggered_by := (inp 5).1, condition_met := (inp 5).2.1 }, { from_phase := .P7_HANDOFF, to_phase := .P8_IMPL_PLAN, timestamp := (inp 6).2.2, triggered_by := (inp 6).1, condition_met := (inp 6).2.1 }, { from_phase := .P8_IMPL_PLAN, to_phase := .P9_SLICE, timestamp := (inp 7).2.2, triggered_by := (inp 7).1, condition_met := (inp 7).2.1 }, { from_phase := .P9_SLICE, to_phase := .P10_CODE_REVIEW, timestamp := (inp 8).2.2, triggered_by := (inp 8).1, condition_met := (inp 8).2.1 }, { from_phase := .P10_CODE_REVIEW, to_phase := .P11_IMPL_UAT, timestamp := (inp 9).2.2, triggered_by := (inp 9).1, condition_met := (inp 9).2.1 }], last_error := none } : EpochState) := rfl
  have e11 : gatedStep ({ epoch_id := eid, current_phase := .P11_IMPL_UAT, completed_phases := insert PhaseId.P10_CODE_REVIEW (insert PhaseId.P9_SLICE (insert PhaseId.P8_IMPL_PLAN (insert PhaseId.P7_HANDOFF (insert PhaseId.P6_RATIFY (insert PhaseId.P5_UAT (insert PhaseId.P4_REVIEW (insert PhaseId.P3_PROPOSE (insert PhaseId.P2_ELICIT (insert PhaseId.P1_REQUEST ((∅ : Finset PhaseId))))))))))), current_role := "epoch", review_votes := { a := none, b := none, c := none }, blocker_count := 0, transition_history := [{ from_phase := .P1_REQUEST, to_phase := .P2_ELICIT, timestamp := (inp 0).2.2, triggered_by := (inp 0).1, condition_met := (inp 0).2.1 }, { from_phase := .P2_ELICIT, to_phase := .P3_PROPOSE, timestamp := (inp 1).2.2, triggered_by := (inp 1).1, condition_met := (inp 1).2.1 }, { from_phase := .P3_PROPOSE, to_phase := .P4_REVIEW, timestamp := (inp 2).2.2, triggered_by := (inp 2).1, condition_met := (inp 2).2.1 }, { from_phase := .P4_REVIEW, to_phase := .P5_UAT, timestamp := (inp 3).2.2, triggered_by := (inp 3).1, condition_met := (inp 3).2.1 }, { from_phase := .P5_UAT, to_phase := .P6_RATIFY, timestamp := (inp 4).2.2, triggered_by := (inp 4).1, condition_met := (inp 4).2.1 }, { from_phase := .P6_RATIFY, to_phase := .P7_HANDOFF, timestamp := (inp 5).2.2, triggered_by := (inp 5).1, condition_met := (inp 5).2.1 }, { from_phase := .P7_HANDOFF, to_phase := .P8_IMPL_PLAN, timestamp := (inp 6).2.2, triggered_by := (inp 6).1, condition_met := (inp 6).2.1 }, { from_phase := .P8_IMPL_PLAN, to_phase := .P9_SLICE, timestamp := (inp 7).2.2, triggered_by := (inp 7).1, condition_met := (inp 7).2.1 }, { from_phase := .P9_SLICE, to_phase := .P10_CODE_REVIEW, timestamp := (inp 8).2.2, triggered_by := (inp 8).1, condition_met := (inp 8).2.1 }, { from_phase := .P10_CODE_REVIEW, to_phase := .P11_IMPL_UAT, timestamp := (inp 9).2.2, triggered_by := (inp 9).1, condition_met := (inp 9).2.1 }], last_error := none } : EpochState) .P12_LANDING (inp 10).1 (inp 10).2.1 (inp 10).2.2 = .ok ({ epoch_id := eid, current_phase := .P12_LANDING, completed_phases := insert PhaseId.P11_IMPL_UAT (insert PhaseId.P10_CODE_REVIEW (insert PhaseId.P9_SLICE (insert PhaseId.P8_IMPL_PLAN (insert PhaseId.P7_HANDOFF (insert PhaseId.P6_RATIFY (insert PhaseId.P5_UAT (insert PhaseId.P4_REVIEW (insert PhaseId.P3_PROPOSE (insert PhaseId.P2_ELICIT (insert PhaseId.P1_REQUEST ((∅ : Finset PhaseId)))))))))))), current_role := "epoch", review_votes := { a := none, b := none, c := none }, blocker_count := 0, transition_history := [{ from_phase := .P1_REQUEST, to_phase := .P2_ELICIT, timestamp := (inp 0).2.2, triggered_by := (inp 0).1, condition_met := (inp 0).2.1 }, { from_phase := .P2_ELICIT, to_phase := .P3_PROPOSE, timestamp := (inp 1).2.2, triggered_by := (inp 1).1, condition_met := (inp 1).2.1 }, { from_phase := .P3_PROPOSE, to_phase := .P4_REVIEW, timestamp := (inp 2).2.2, triggered_by := (inp 2).1, condition_met := (inp 2).2.1 }, { from_phase := .P4_REVIEW, to_phase := .P5_UAT, timestamp := (inp 3).2.2, triggered_by := (inp 3).1, condition_met := (inp 3).2.1 }, { from_phase := .P5_UAT, to_phase := .P6_RATIFY, timestamp := (inp 4).2.2, triggered_by := (inp 4).1, condition_met := (inp 4).2.1 }, { from_phase := .P6_RATIFY, to_phase := .P7_HANDOFF, timestamp := (inp 5).2.2, triggered_by := (inp 5).1, condition_met := (inp 5).2.1 }, { from_phase := .P7_HANDOFF, to_phase := .P8_IMPL_PLAN, timestamp := (inp 6).2.2, triggered_by := (inp 6).1, condition_met := (inp 6).2.1 }, { from_phase := .P8_IMPL_PLAN, to_phase := .P9_SLICE, timestamp := (inp 7).2.2, triggered_by := (inp 7).1, condition_met := (inp 7).2.1 }, { from_phase := .P9_SLICE, to_phase := .P10_CODE_REVIEW, timestamp := (inp 8).2.2, triggered_by := (inp 8).1, condition_met := (inp 8).2.1 }, { from_phase := .P10_CODE_REVIEW, to_phase := .P11_IMPL_UAT, timestamp := (inp 9).2.2, triggered_by := (inp 9).1, condition_met := (inp 9).2.1 }, { from_phase := .P11_IMPL_UAT, to_phase := .P12_LANDING, timestamp := (inp 10).2.2, triggered_by := (inp 10).1, condition_met := (inp 10).2.1 }], last_error := none } : EpochState) := rfl
  have e12 : gatedStep ({ epoch_id := eid, current_phase := .P12_LANDING, completed_phases := insert PhaseId.P11_IMPL_UAT (insert PhaseId.P10_CODE_REVIEW (insert PhaseId.P9_SLICE (insert PhaseId.P8_IMPL_PLAN (insert PhaseId.P7_HANDOFF (insert PhaseId.P6_RATIFY (insert PhaseId.P5_UAT (insert PhaseId.P4_REVIEW (insert PhaseId.P3_PROPOSE (insert PhaseId.P2_ELICIT (insert PhaseId.P1_REQUEST ((∅ : Finset PhaseId)))))))))))), current_role := "epoch", review_votes := { a := none, b := none, c := none }, blocker_count := 0, transition_history := [{ from_phase := .P1_REQUEST, to_phase := .P2_ELICIT, timestamp := (inp 0).2.2, triggered_by := (inp 0).1, condition_met := (inp 0).2.1 }, { from_phase := .P2_ELICIT, to_phase := .P3_PROPOSE, timestamp := (inp 1).2.2, triggered_by := (inp 1).1, condition_met := (inp 1).2.1 }, { from_phase := .P3_PROPOSE, to_phase := .P4_REVIEW, timestamp := (inp 2).2.2, triggered_by := (inp 2).1, condition_met := (inp 2).2.1 }, { from_phase := .P4_REVIEW, to_phase := .P5_UAT, timestamp := (inp 3).2.2, triggered_by := (inp 3).1, condition_met := (inp 3).2.1 }, { from_phase := .P5_UAT, to_phase := .P6_RATIFY, timestamp := (inp 4).2.2, triggered_by := (inp 4).1, condition_met := (inp 4).2.1 }, { from_phase := .P6_RATIFY, to_phase := .P7_HANDOFF, timestamp := (inp 5).2.2, triggered_by := (inp 5).1, condition_met := (inp 5).2.1 }, { from_phase := .P7_HANDOFF, to_phase := .P8_IMPL_PLAN, timestamp := (inp 6).2.2, triggered_by := (inp 6).1, condition_met := (inp 6).2.1 }, { from_phase := .P8_IMPL_PLAN, to_phase := .P9_SLICE, timestamp := (inp 7).2.2, triggered_by := (inp 7).1, condition_met := (inp 7).2.1 }, { from_phase := .P9_SLICE, to_phase := .P10_CODE_REVIEW, timestamp := (inp 8).2.2, triggered_by := (inp 8).1, condition_met := (inp 8).2.1 }, { from_phase := .P10_CODE_REVIEW, to_phase := .P11_IMPL_UAT, timestamp := (inp 9).2.2, triggered_by := (inp 9).1, condition_met := (inp 9).2.1 }, { from_phase := .P11_IMPL_UAT, to_phase := .P12_LANDING, timestamp := (inp 10).2.2, triggered_by := (inp 10).1, condition_met := (inp 10).2.1 }], last_error := none } : EpochState) .COMPLETE (inp 11).1 (inp 11).2.1 (inp 11).2.2 = .ok ({ epoch_id := eid, current_phase := .COMPLETE, completed_phases := insert PhaseId.P12_LANDING (insert PhaseId.P11_IMPL_UAT (insert PhaseId.P10_CODE_REVIEW (insert PhaseId.P9_SLICE (insert PhaseId.P8_IMPL_PLAN (insert PhaseId.P7_HANDOFF (insert PhaseId.P6_RATIFY (insert PhaseId.P5_UAT (insert PhaseId.P4_REVIEW (insert PhaseId.P3_PROPOSE (insert PhaseId.P2_ELICIT (insert PhaseId.P1_REQUEST ((∅ : Finset PhaseId))))))))))))), current_role := "epoch", review_votes := { a := none, b := none, c := none }, blocker_count := 0, transition_history := [{ from_phase := .P1_REQUEST, to_phase := .P2_ELICIT, timestamp := (inp 0).2.2, triggered_by := (inp 0).1, condition_met := (inp 0).2.1 }, { from_phase := .P2_ELICIT, to_phase := .P3_PROPOSE, timestamp := (inp 1).2.2, triggered_by := (inp 1).1, condition_met := (inp 1).2.1 }, { from_phase := .P3_PROPOSE, to_phase := .P4_REVIEW, timestamp := (inp 2).2.2, triggered_by := (inp 2).1, condition_met := (inp 2).2.1 }, { from_phase := .P4_REVIEW, to_phase := .P5_UAT, timestamp := (inp 3).2.2, triggered_by := (inp 3).1, condition_met := (inp 3).2.1 }, { from_phase := .P5_UAT, to_phase := .P6_RATIFY, timestamp := (inp 4).2.2, triggered_by := (inp 4).1, condition_met := (inp 4).2.1 }, { from_phase := .P6_RATIFY, to_phase := .P7_HANDOFF, timestamp := (inp 5).2.2, triggered_by := (inp 5).1, condition_met := (inp 5).2.1 }, { from_phase := .P7_HANDOFF, to_phase := .P8_IMPL_PLAN, timestamp := (inp 6).2.2, triggered_by := (inp 6).1, condition_met := (inp 6).2.1 }, { from_phase := .P8_IMPL_PLAN, to_phase := .P9_SLICE, timestamp := (inp 7).2.2, triggered_by := (inp 7).1, condition_met := (inp 7).2.1 }, { from_phase := .P9_SLICE, to_phase := .P10_CODE_REVIEW, timestamp := (inp 8).2.2, triggered_by := (inp 8).1, condition_met := (inp 8).2.1 }, { from_phase := .P10_CODE_REVIEW, to_phase := .P11_IMPL_UAT, timestamp := (inp 9).2.2, triggered_by := (inp 9).1, condition_met := (inp 9).2.1 }, { from_phase := .P11_IMPL_UAT, to_phase := .P12_LANDING, timestamp := (inp 10).2.2, triggered_by := (inp 10).1, condition_met := (inp 10).2.1 }, { from_phase := .P12_LANDING, to_phase := .COMPLETE, timestamp := (inp 11).2.2, triggered_by := (inp 11).1, condition_met := (inp 11).2.1 }], last_error := none } : EpochState) := rfl
  have hrun : runForward (initEpochState eid) (c1Steps inp) = .ok ({ epoch_id := eid, current_phase := .COMPLETE, completed_phases := insert PhaseId.P12_LANDING (insert PhaseId.P11_IMPL_UAT (insert PhaseId.P10_CODE_REVIEW (insert PhaseId.P9_SLICE (insert PhaseId.P8_IMPL_PLAN (insert PhaseId.P7_HANDOFF (insert PhaseId.P6_RATIFY (insert PhaseId.P5_UAT (insert PhaseId.P4_REVIEW (insert PhaseId.P3_PROPOSE (insert PhaseId.P2_ELICIT (insert PhaseId.P1_REQUEST ((∅ : Finset PhaseId))))))))))))), current_role := "epoch", review_votes := { a := none, b := none, c := none }, blocker_count := 0, transition_history := [{ from_phase := .P1_REQUEST, to_phase := .P2_ELICIT, timestamp := (inp 0).2.2, triggered_by := (inp 0).1, condition_met := (inp 0).2.1 }, { from_phase := .P2_ELICIT, to_phase := .P3_PROPOSE, timestamp := (inp 1).2.2, triggered_by := (inp 1).1, condition_met := (inp 1).2.1 }, { from_phase := .P3_PROPOSE, to_phase := .P4_REVIEW, timestamp := (inp 2).2.2, triggered_by := (inp 2).1, condition_met := (inp 2).2.1 }, { from_phase := .P4_REVIEW, to_phase := .P5_UAT, timestamp := (inp 3).2.2, triggered_by := (inp 3).1, condition_met := (inp 3).2.1 }, { from_phase := .P5_UAT, to_phase := .P6_RATIFY, timestamp := (inp 4).2.2, triggered_by := (inp 4).1, condition_met := (inp 4).2.1 }, { from_phase := .P6_RATIFY, to_phase := .P7_HANDOFF, timestamp := (inp 5).2.2, triggered_by := (inp 5).1, condition_met := (inp 5).2.1 }, { from_phase := .P7_HANDOFF, to_phase := .P8_IMPL_PLAN, timestamp := (inp 6).2.2, triggered_by := (inp 6).1, condition_met := (inp 6).2.1 }, { from_phase := .P8_IMPL_PLAN, to_phase := .P9_SLICE, timestamp := (inp 7).2.2, triggered_by := (inp 7).1, condition_met := (inp 7).2.1 }, { from_phase := .P9_SLICE, to_phase := .P10_CODE_REVIEW, timestamp := (inp 8).2.2, triggered_by := (inp 8).1, condition_met := (inp 8).2.1 }, { from_phase := .P10_CODE_REVIEW, to_phase := .P11_IMPL_UAT, timestamp := (inp 9).2.2, triggered_by := (inp 9).1, condition_met := (inp 9).2.1 }, { from_phase := .P11_IMPL_UAT, to_phase := .P12_LANDING, timestamp := (inp 10).2.2, triggered_by := (inp 10).1, condition_met := (inp 10).2.1 }, { from_phase := .P12_LANDING, to_phase := .COMPLETE, timestamp := (inp 11).2.2, triggered_by := (inp 11).1, condition_met := (inp 11).2.1 }], last_error := none } : EpochState) := by
    simp only [c1Steps, runForward, e1, e2, e3, e4, e5, e6, e7, e8, e9, e10, e11, e12]
  rw [hrun]
  exact ⟨rfl, rfl, of_decide_eq_true rfl, rfl⟩

theorem advance_err (s : EpochState) (toPhase : PhaseId) (tb cm : String) (now : Nat)
    (h : validate_advance s toPhase ≠ []) :
    advance s toPhase tb cm now = (s, .error ⟨validate_advance s toPhase⟩) := by
  simp [advance, List.isEmpty_iff, h]

theorem advance_ok_eq (s : EpochState) (toPhase : PhaseId) (tb cm : String) (now : Nat)
    (h : validate_advance s toPhase = []) :
    advance s toPhase tb cm now =
      ({ s with
          current_phase := toPhase,
          completed_phases := insert s.current_phase s.completed_phases,
          review_votes := {},
          transition_history := s.transition_history ++
            [{ from_phase := s.current_phase, to_phase := toPhase, timestamp := now,
               triggered_by := tb, condition_met := cm }],
          last_error := none },
       .ok { from_phase := s.current_phase, to_phase := toPhase, timestamp := now,
             triggered_by := tb, condition_met := cm }) := by
  simp [advance, List.isEmpty_iff, h]

/-- Claim C2: whenever validation fails — the current phase is terminal, no
legal edge leads to the proposed phase, or the matched edge's gate is unmet
— `advance` returns a transition error carrying at least one violation
message and leaves the state completely unchanged; in particular, from the
initial phase an advance directly to the phase 7 steps ahead (p8) fails
with the history still empty. -/
theorem c2_failed_advance_no_mutation (s : EpochState) (toPhase : PhaseId)
    (tb cm : String) (now : Nat)
    (h : s.current_phase = .COMPLETE ∨
         (transitionsFor s.current_phase).find? (fun t => decide (t.to_phase = toPhase)) = none ∨
         ∃ t, (transitionsFor s.current_phase).find? (fun t' => decide (t'.to_phase = toPhase)) = some t ∧
              gateViolations s t.gate ≠ []) :
    (advance s toPhase tb cm now).1 = s ∧
    (advance s toPhase tb cm now).2.isOk = false ∧
    violationsOf (advance s toPhase tb cm now).2 ≠ [] ∧
    (advance (initEpochState "E1") .P8_IMPL_PLAN tb cm now).2.isOk = false ∧
    (advance (initEpochState "E1") .P8_IMPL_PLAN tb cm now).1.transition_history = [] := by
  have hv : validate_advance s toPhase ≠ [] := by
    unfold validate_advance
    rcases h with h | h | ⟨t, ht, hg⟩
    · rw [if_pos h]
      simp
    · by_cases hc : s.current_phase = .COMPLETE
      · rw [if_pos hc]
        simp
      · rw [if_neg hc, h]
        simp
    · by_cases hc : s.current_phase = .COMPLETE
      · rw [if_pos hc]
        simp
      · rw [if_neg hc, ht]
        exact hg
  have he := advance_err s toPhase tb cm now hv
  refine ⟨by rw [he], by rw [he]; rfl, ?_, rfl, rfl⟩
  rw [he]
  simpa [violationsOf] using hv

/-- Witness for C2 at a concrete input: from a fresh epoch at p1, advancing
directly to p8 errors and mutates nothing. -/
theorem c2_witness :
    (advance (initEpochState "E1") .P8_IMPL_PLAN "architect" "skip" 0).1 = initEpochState "E1" ∧
    violationsOf (advance (initEpochState "E1") .P8_IMPL_PLAN "architect" "skip" 0).2 ≠ [] := by
  have h := c2_failed_advance_no_mutation (initEpochState "E1") .P8_IMPL_PLAN
    "architect" "skip" 0 (Or.inr (Or.inl rfl))
  exact ⟨h.1, h.2.2.1⟩

/-- Claim C3: `has_consensus` holds exactly when all three axes A, B, C are
recorded as ACCEPT; consequently at the first review phase (p4) with only
votes A:ACCEPT and B:ACCEPT the advance to p5 fails with a violation
mentioning consensus, and after recording C:ACCEPT through `record_vote`
the same advance succeeds. -/
theorem c3_consensus_gate (s s3 : EpochState) (tb cm : String) (now : Nat)
    (hp : s.current_phase = .P4_REVIEW)
    (hv : s.review_votes = { a := some .ACCEPT, b := some .ACCEPT, c := none })
    (hrec : record_vote s "C" .ACCEPT = .ok s3) :
    (∀ v : ReviewVotes, has_consensus v = true ↔ v = allAccept) ∧
    (advance s .P5_UAT tb cm now).2.isOk = false ∧
    (violationsOf (advance s .P5_UAT tb cm now).2).any (mentionsStr "consensus") = true ∧
    (advance s3 .P5_UAT tb cm now).2.isOk = true := by
  obtain ⟨eid, cur, comp, role, votes, bc, hist, le⟩ := s
  dsimp only at hp hv
  subst hp
  subst hv
  rw [show record_vote
        ⟨eid, .P4_REVIEW, comp, role, ⟨some .ACCEPT, some .ACCEPT, none⟩, bc, hist, le⟩
        "C" .ACCEPT =
      .ok ⟨eid, .P4_REVIEW, comp, role, ⟨some .ACCEPT, some .ACCEPT, some .ACCEPT⟩, bc, hist, le⟩
      from rfl] at hrec
  injection hrec with h3
  subst h3
  refine ⟨?_, rfl, rfl, rfl⟩
  intro v
  obtain ⟨a, b, c⟩ := v
  simp [has_consensus, allAccept, and_assoc]

/-- Witness for C3 at a concrete input: a p4 state with two ACCEPT votes. -/
theorem c3_witness :
    (advance { epoch_id := "E1", current_phase := PhaseId.P4_REVIEW,
               review_votes := { a := some .ACCEPT, b := some .ACCEPT, c := none } }
       .P5_UAT "r" "c" 0).2.isOk = false ∧
    (advance { epoch_id := "E1", current_phase := PhaseId.P4_REVIEW,
               review_votes := { a := some .ACCEPT, b := some .ACCEPT, c := some .ACCEPT } }
       .P5_UAT "r" "c" 0).2.isOk = true := by
  have h := c3_consensus_gate
    { epoch_id := "E1", current_phase := PhaseId.P4_REVIEW,
      review_votes := { a := some .ACCEPT, b := some .ACCEPT, c := none } }
    { epoch_id := "E1", current_phase := PhaseId.P4_REVIEW,
      review_votes := { a := some .ACCEPT, b := some .ACCEPT, c := some .ACCEPT } }
    "r" "c" 0 rfl rfl rfl
  exact ⟨h.2.1, h.2.2.2⟩

/-- Claim C4: at the first review phase, whenever any one axis is recorded
as REVISE (the other axes arbitrary), `available_transitions` yields
exactly one transition, targeting the back-edge phase p3, and never the
forward target p5. -/
theorem c4_revise_only_back_edge (s : EpochState)
    (hp : s.current_phase = .P4_REVIEW)
    (hr : s.review_votes.a = some .REVISE ∨ s.review_votes.b = some .REVISE ∨
          s.review_votes.c = some .REVISE) :
    (available_transitions s).map Transition.to_phase = [.P3_PROPOSE] ∧
    available_transitions s = [⟨.P3_PROPOSE, "any reviewer votes REVISE", none⟩] := by
  have hc : has_consensus s.review_votes = false := by
    rcases hr with h | h | h <;> simp [has_consensus, h]
  have h2 : available_transitions s = [⟨.P3_PROPOSE, "any reviewer votes REVISE", none⟩] := by
    simp [available_transitions, hp, transitionsFor, gateOk, hc]
  rw [h2]
  exact ⟨rfl, rfl⟩

/-- Witness for C4 at a concrete input: p4 with axis C voted REVISE and the
other two ACCEPT. -/
theorem c4_witness :
    (available_transitions
      { epoch_id := "E1", current_phase := PhaseId.P4_REVIEW,
        review_votes := { a := some .ACCEPT, b := some .ACCEPT, c := some .REVISE } }).map
      Transition.to_phase = [.P3_PROPOSE] := by
  exact (c4_revise_only_back_edge
    { epoch_id := "E1", current_phase := PhaseId.P4_REVIEW,
      review_votes := { a := some .ACCEPT, b := some .ACCEPT, c := some .REVISE } }
    rfl (Or.inr (Or.inr rfl))).1

/-- Claim C5: at the second review phase with one unresolved blocker and
full consensus, advancing to p11 fails with a violation mentioning blocker;
`record_blocker(resolved := true)` decrements the count to 0, after which
the same advance succeeds; and resolving at count 0 leaves the count at 0
(clamped, never negative). -/
theorem c5_blocker_gate_clamp (s s0 : EpochState) (tb cm : String) (now : Nat)
    (hp : s.current_phase = .P10_CODE_REVIEW)
    (hv : s.review_votes = allAccept)
    (hb : s.blocker_count = 1)
    (h0 : s0.blocker_count = 0) :
    (advance s .P11_IMPL_UAT tb cm now).2.isOk = false ∧
    (violationsOf (advance s .P11_IMPL_UAT tb cm now).2).any (mentionsStr "blocker") = true ∧
    (record_blocker s true).blocker_count = 0 ∧
    (advance (record_blocker s true) .P11_IMPL_UAT tb cm now).2.isOk = true ∧
    (record_blocker s0 true).blocker_count = 0 := by
  obtain ⟨eid, cur, comp, role, votes, bc, hist, le⟩ := s
  dsimp only at hp hv hb
  subst hp
  subst hv
  subst hb
  refine ⟨rfl, rfl, rfl, rfl, ?_⟩
  simp [record_blocker, h0]

/-- Witness for C5 at a concrete input: p10, full consensus, one blocker. -/
theorem c5_witness :
    (advance { epoch_id := "E1", current_phase := PhaseId.P10_CODE_REVIEW,
               review_votes := allAccept, blocker_count := 1 }
       .P11_IMPL_UAT "sup" "resolved" 0).2.isOk = false ∧
    (record_blocker
      { epoch_id := "E1", current_phase := PhaseId.P10_CODE_REVIEW,
        review_votes := allAccept, blocker_count := 1 } true).blocker_count = 0 := by
  have h := c5_blocker_gate_clamp
    { epoch_id := "E1", current_phase := PhaseId.P10_CODE_REVIEW,
      review_votes := allAccept, blocker_count := 1 }
    { epoch_id := "E0", current_phase := PhaseId.P1_REQUEST }
    "sup" "resolved" 0 rfl rfl rfl rfl
  exact ⟨h.1, h.2.2.1⟩

/-- Claim C6: the state-scoped aggregator does not short-circuit — at the
second review phase with a positive blocker count and no votes recorded,
`check_state_constraints` contains a violation tagged with the
consensus-rule id and a violation tagged with the blocker-rule id
simultaneously (all predicates are total functions returning violations as
data, so none can raise). -/
theorem c6_state_constraints_both (s : EpochState)
    (hp : s.current_phase = .P10_CODE_REVIEW)
    (hb : 0 < s.blocker_count)
    (hv : s.review_votes = noVotes) :
    ((check_state_constraints s).any (fun v => v.constraint_id == "C-review-consensus")) = true ∧
    ((check_state_constraints s).any (fun v => v.constraint_id == "C-worker-gates")) = true := by
  have hc : has_consensus s.review_votes = false := by
    rw [hv]
    rfl
  constructor <;>
    simp [check_state_constraints, check_review_consensus, check_severity_tree,
          check_blocker_gate, check_audit_trail, check_role_ownership, hp, hb, hc]

/-- Witness for C6 at a concrete input: p10, three blockers, no votes. -/
theorem c6_witness :
    ((check_state_constraints
        { epoch_id := "E1", current_phase := PhaseId.P10_CODE_REVIEW, blocker_count := 3 }).any
      (fun v => v.constraint_id == "C-review-consensus")) = true ∧
    ((check_state_constraints
        { epoch_id := "E1", current_phase := PhaseId.P10_CODE_REVIEW, blocker_count := 3 }).any
      (fun v => v.constraint_id == "C-worker-gates")) = true := by
  exact c6_state_constraints_both
    { epoch_id := "E1", current_phase := PhaseId.P10_CODE_REVIEW, blocker_count := 3 }
    rfl (by decide) rfl

/-- Claim C7: for every epoch state and every proposed target phase, the
deprecated alias `check_transition` returns output equal by value to the
primary entry point `check_transition_constraints`. -/
theorem c7_check_transition_alias (s : EpochState) (toPhase : PhaseId) :
    check_transition s toPhase = check_transition_constraints s toPhase := rfl

theorem replaceLast_concat (l : List TransitionRecord) (a x : TransitionRecord) :
    replaceLast (l ++ [a]) x = l ++ [x] := by
  simp [replaceLast]

/-- Claim C8, counterexample: processing one advance signal through the
workflow wrapper with a machine clock of 0 and a workflow clock of 1, the
transition record committed by the state machine (timestamp 0) is no
longer present in the resulting history — workflow.py line 287 replaces
the committed final history entry, so the system does not leave every
committed entry untouched as the claim states. -/
theorem c8_counterexample :
    (advance (initEpochState "E1") .P2_ELICIT "architect" "ok" 0).1.transition_history =
      [{ from_phase := .P1_REQUEST, to_phase := .P2_ELICIT, timestamp := 0,
         triggered_by := "architect", condition_met := "ok" }] ∧
    ({ from_phase := .P1_REQUEST, to_phase := .P2_ELICIT, timestamp := 0,
       triggered_by := "architect", condition_met := "ok" } : TransitionRecord) ∉
      (workflowProcessAdvance (initEpochState "E1")
        { to_phase := .P2_ELICIT, triggered_by := "architect", condition_met := "ok" }
        0 1).transition_history := by
  exact ⟨rfl, by decide⟩

/-- Claim C8, amended: each successful `advance` appends exactly one record
to the history; the workflow wrapper's processing of an advance signal
always preserves the prior history as a prefix, appending at most one
record — it replaces only the record appended during that same processing
(substituting an equal record carrying the workflow timestamp) — and the
vote- and blocker-recording operations never touch the history, so the
history always reflects a total order of committed transitions. -/
theorem c8_amended_history_order (s : EpochState) (sig : PhaseAdvanceSignal)
    (machineNow wfNow : Nat) :
    (∀ s1 r, advance s sig.to_phase sig.triggered_by sig.condition_met machineNow = (s1, .ok r) →
        s1.transition_history = s.transition_history ++ [r] ∧
        (workflowProcessAdvance s sig machineNow wfNow).transition_history =
          s.transition_history ++ [{ r with timestamp := wfNow }]) ∧
    (∃ tail, (workflowProcessAdvance s sig machineNow wfNow).transition_history =
        s.transition_history ++ tail ∧ tail.length ≤ 1) ∧
    (∀ resolved, (record_blocker s resolved).transition_history = s.transition_history) ∧
    (∀ axis vote s2, record_vote s axis vote = .ok s2 →
        s2.transition_history = s.transition_history) := by
  have hrb : ∀ resolved, (record_blocker s resolved).transition_history = s.transition_history := by
    intro resolved
    cases resolved <;> rfl
  have hrv : ∀ axis vote s2, record_vote s axis vote = .ok s2 →
      s2.transition_history = s.transition_history := by
    intro axis vote s2 h2
    cases hax : parseAxis axis <;> simp [record_vote, hax] at h2
    subst h2
    rfl
  by_cases h : validate_advance s sig.to_phase = []
  · have ha := advance_ok_eq s sig.to_phase sig.triggered_by sig.condition_met machineNow h
    refine ⟨?_, ?_, hrb, hrv⟩
    · intro s1 r heq
      rw [ha] at heq
      injection heq with h1 h2
      injection h2 with h2
      subst h1
      subst h2
      refine ⟨rfl, ?_⟩
      simp only [workflowProcessAdvance, ha]
      exact replaceLast_concat _ _ _
    · refine ⟨[{ from_phase := s.current_phase, to_phase := sig.to_phase, timestamp := wfNow,
                 triggered_by := sig.triggered_by, condition_met := sig.condition_met }],
              ?_, by simp⟩
      simp only [workflowProcessAdvance, ha]
      exact replaceLast_concat _ _ _
  · have ha := advance_err s sig.to_phase sig.triggered_by sig.condition_met machineNow h
    refine ⟨?_, ?_, hrb, hrv⟩
    · intro s1 r heq
      rw [ha] at heq
      injection heq with h1 h2
      exact absurd h2 (by simp)
    · refine ⟨[], ?_, by simp⟩
      simp only [workflowProcessAdvance, ha]
      simp

/-- Witness for the amended C8 at a concrete input: one advance signal
processed by the workflow from a fresh epoch. -/
theorem c8_amended_witness :
    (workflowProcessAdvance (initEpochState "E1")
        { to_phase := .P2_ELICIT, triggered_by := "architect", condition_met := "ok" }
        0 5).transition_history =
      (initEpochState "E1").transition_history ++
        [{ from_phase := .P1_REQUEST, to_phase := .P2_ELICIT, timestamp := 5,
           triggered_by := "architect", condition_met := "ok" }] := by
  exact ((c8_amended_history_order (initEpochState "E1")
    { to_phase := .P2_ELICIT, triggered_by := "architect", condition_met := "ok" }
    0 5).1 _ _ rfl).2

/-- Claim C9: when the workflow wrapper processes an advance signal that
fails validation, the state's `last_error` is set to the violation text;
every successful `advance` clears `last_error` back to none; and
`last_error` never gates anything — validation and the success of `advance`
are independent of its value. -/
theorem c9_last_error_observability (s : EpochState) (sig : PhaseAdvanceSignal)
    (machineNow wfNow : Nat) :
    (∀ e, (advance s sig.to_phase sig.triggered_by sig.condition_met machineNow).2 = .error e →
        (workflowProcessAdvance s sig machineNow wfNow).last_error =
          some (transitionErrText e)) ∧
    (∀ s1 r, advance s sig.to_phase sig.triggered_by sig.condition_met machineNow = (s1, .ok r) →
        s1.last_error = none) ∧
    (∀ v toPhase, validate_advance { s with last_error := v } toPhase =
        validate_advance s toPhase) ∧
    (∀ v toPhase tb cm now,
        (advance { s with last_error := v } toPhase tb cm now).2.isOk =
        (advance s toPhase tb cm now).2.isOk) := by
  refine ⟨?_, ?_, fun v toPhase => rfl, ?_⟩
  · intro e he
    by_cases h : validate_advance s sig.to_phase = []
    · rw [advance_ok_eq s sig.to_phase sig.triggered_by sig.condition_met machineNow h] at he
      exact absurd he (by simp)
    · have ha := advance_err s sig.to_phase sig.triggered_by sig.condition_met machineNow h
      rw [ha] at he
      injection he with he
      subst he
      simp only [workflowProcessAdvance, ha]
  · intro s1 r heq
    by_cases h : validate_advance s sig.to_phase = []
    · rw [advance_ok_eq s sig.to_phase sig.triggered_by sig.condition_met machineNow h] at heq
      injection heq with h1 h2
      subst h1
      rfl
    · rw [advance_err s sig.to_phase sig.triggered_by sig.condition_met machineNow h] at heq
      injection heq with h1 h2
      exact absurd h2 (by simp)
  · intro v toPhase tb cm now
    have hval : validate_advance { s with last_error := v } toPhase =
        validate_advance s toPhase := rfl
    by_cases h : validate_advance s toPhase = []
    · rw [advance_ok_eq _ _ _ _ _ (hval.trans h), advance_ok_eq _ _ _ _ _ h]
    · rw [advance_err _ _ _ _ _ (by rw [hval]; exact h), advance_err _ _ _ _ _ h]
      rfl

/-- Witness for C9 at concrete inputs: a rejected skip sets `last_error`, a
successful advance leaves it cleared. -/
theorem c9_witness :
    (workflowProcessAdvance (initEpochState "E1")
        { to_phase := .P8_IMPL_PLAN, triggered_by := "a", condition_met := "c" }
        0 1).last_error =
      some (transitionErrText ⟨["no valid transition from p1 to p8"]⟩) ∧
    (advance (initEpochState "E1") .P2_ELICIT "a" "c" 0).1.last_error = none := by
  constructor
  · exact (c9_last_error_observability (initEpochState "E1")
      { to_phase := .P8_IMPL_PLAN, triggered_by := "a", condition_met := "c" } 0 1).1
      ⟨["no valid transition from p1 to p8"]⟩ rfl
  · exact (c9_last_error_observability (initEpochState "E1")
      { to_phase := .P2_ELICIT, triggered_by := "a", condition_met := "c" } 0 1).2.1 _ _ rfl

theorem partitionFirstSlash_none (cs : List Char) (h : '/' ∉ cs) :
    partitionFirstSlash cs = none := by
  induction cs with
  | nil => rfl
  | cons c rest ih =>
      simp only [List.mem_cons, not_or] at h
      simp only [partitionFirstSlash]
      rw [if_neg (fun e => h.1 e.symm), ih h.2]
      rfl

theorem partitionFirstSlash_split (cs ms : List Char) (h : '/' ∉ cs) :
    partitionFirstSlash (cs ++ '/' :: ms) = some (cs, ms) := by
  induction cs with
  | nil => simp [partitionFirstSlash]
  | cons c rest ih =>
      simp only [List.mem_cons, not_or] at h
      simp only [List.cons_append, partitionFirstSlash, List.append_eq]
      rw [if_neg (fun e => h.1 e.symm), ih h.2]
      rfl

theorem string_mk_data (q : String) : String.mk q.data = q := by
  cases q
  rfl

theorem string_of_data_nil (q : String) (h : q.data = []) : q = "" := by
  cases q
  subst h
  rfl

/-- Claim C10: for every string consisting of a slash-free non-empty
provider part, a slash, and a non-empty model part (which may itself
contain slashes), `ModelId.parse` returns exactly that provider and model,
and the string form of the result round-trips to the input; parsing fails
(ValueError, here `none`) for every string without a slash, for every
string whose provider part is empty, and for every string whose model part
is empty. -/
theorem c10_model_id_parse (p m s : String)
    (hp : '/' ∉ p.data) (hs : '/' ∉ s.data) :
    (p ≠ "" → m ≠ "" →
      ModelId.parse (p ++ "/" ++ m) = some { provider := p, model := m } ∧
      modelIdStr { provider := p, model := m } = p ++ "/" ++ m) ∧
    ModelId.parse s = none ∧
    ModelId.parse ("/" ++ m) = none ∧
    ModelId.parse (p ++ "/") = none := by
  have hdata : (p ++ "/" ++ m).data = p.data ++ '/' :: m.data := by
    simp [String.data_append]
  have hdata2 : ("/" ++ m).data = '/' :: m.data := by
    simp [String.data_append]
  have hdata3 : (p ++ "/").data = p.data ++ '/' :: ([] : List Char) := by
    simp [String.data_append]
  refine ⟨?_, ?_, ?_, ?_⟩
  · intro hpne hmne
    have hpd : p.data ≠ [] := fun e => hpne (string_of_data_nil p e)
    have hmd : m.data ≠ [] := fun e => hmne (string_of_data_nil m e)
    constructor
    · simp only [ModelId.parse, hdata, partitionFirstSlash_split p.data m.data hp]
      rw [if_neg (not_or.mpr ⟨hpd, hmd⟩)]
    · rfl
  · simp only [ModelId.parse, partitionFirstSlash_none s.data hs]
  · simp [ModelId.parse, hdata2, partitionFirstSlash]
  · simp [ModelId.parse, hdata3, partitionFirstSlash_split p.data [] hp]

/-- Witness for C10 at concrete inputs: the documented org-scoped example
and a slash-free failure. -/
theorem c10_witness :
    ModelId.parse "anthropic/team/model" =
      some { provider := "anthropic", model := "team/model" } ∧
    modelIdStr { provider := "anthropic", model := "team/model" } = "anthropic/team/model" ∧
    ModelId.parse "noslash" = none := by
  have h := c10_model_id_parse "anthropic" "team/model" "noslash" (by decide) (by decide)
  have h1 := h.1 (by decide) (by decide)
  exact ⟨h1.1, h1.2, h.2.1⟩

end AuraProtocol
